import Mathlib

/-!
Shallow embedding of the decision core of the Intelligent Traffic
Management System (`dashboard/test_sumo.py` and `dashboard/dqn_model.py`),
together with theorems checking the natural-language specification
against it.

Python floats are modelled as rationals (`ℚ`), Python ints as `ℤ`/`ℕ`,
per-direction arrays of length 4 as `Fin 4 → ℚ`, and raw state vectors
as `List ℚ`.  Python exceptions that the source catches are modelled
with `Option`.
-/

namespace TrafficMgmt

/-- First index attaining the maximum of a 4-entry array, as computed by
`np.argmax` over `[f 0, f 1, f 2, f 3]` (ties resolved to the smallest
index). -/
def argmax4 (f : Fin 4 → ℚ) : Fin 4 :=
  if f 0 ≥ f 1 ∧ f 0 ≥ f 2 ∧ f 0 ≥ f 3 then 0
  else if f 1 ≥ f 2 ∧ f 1 ≥ f 3 then 1
  else if f 2 ≥ f 3 then 2
  else 3

/-- Embedding of `validate_action_choice(dqn_action, traffic, congestion)`
(`test_sumo.py`, lines 542-568): accept the proposed action when its
direction's traffic exceeds 0.05 or its congestion exceeds 0.1; otherwise
fall to the direction of maximum traffic (threshold 0.05), then maximum
congestion (threshold 0.1), then back to the proposal. -/
def validate_action_choice (dqn_action : Fin 4) (traffic congestion : Fin 4 → ℚ) :
    Fin 4 :=
  if traffic dqn_action > 1/20 ∨ congestion dqn_action > 1/10 then dqn_action
  else
    let max_traffic_idx := argmax4 traffic
    let max_congestion_idx := argmax4 congestion
    if traffic max_traffic_idx > 1/20 then max_traffic_idx
    else if congestion max_congestion_idx > 1/10 then max_congestion_idx
    else dqn_action

/-- The fixed right-of-way patterns `action_to_phase` of `test_sumo.py`. -/
def action_to_phase (a : Fin 4) : String :=
  match a with
  | 0 => "GGGrrrrrrrrr"
  | 1 => "rrrrrrGGGrrr"
  | 2 => "rrrGGGrrrrrr"
  | 3 => "rrrrrrrrrGGG"

/-- Embedding of `apply_intelligent_action(action, state)`
(`test_sumo.py`, lines 450-484), over the 12-feature state layout
`[N_count, N_cong, N_speed, S_count, S_cong, S_speed, ...]`. -/
def apply_intelligent_action (action : Fin 4) (state : Fin 12 → ℚ) : String :=
  let direction_traffic : Fin 4 → ℚ := ![state 0, state 3, state 6, state 9]
  let direction_congestion : Fin 4 → ℚ := ![state 1, state 4, state 7, state 10]
  if direction_traffic action > 1/10 ∨ direction_congestion action > 1/5 then
    action_to_phase action
  else
    let max_traffic_dir := argmax4 direction_traffic
    if direction_traffic max_traffic_dir > 1/20 then action_to_phase max_traffic_dir
    else action_to_phase action

/-- The 12-feature state of the C1 scenario:
North = (0.8, 0.6, 0.5), South = (0.1, 0.0, 0.9), East = West = (0,0,0). -/
def scenarioState : Fin 12 → ℚ :=
  ![4/5, 3/5, 1/2, 1/10, 0, 9/10, 0, 0, 0, 0, 0, 0]

/-- Per-direction traffic of the C1 scenario state. -/
def scenarioTraffic : Fin 4 → ℚ := ![4/5, 1/10, 0, 0]

/-- Per-direction congestion of the C1 scenario state. -/
def scenarioCongestion : Fin 4 → ℚ := ![3/5, 0, 0, 0]

/-- C1 counterexample: on the scenario state, `validate_action_choice`
with proposed action South (1) does not return North (0): South's
traffic 0.1 exceeds the validator's 0.05 acceptance threshold, so the
proposal is accepted unchanged. -/
theorem C1_counterexample :
    validate_action_choice 1 scenarioTraffic scenarioCongestion ≠ 0 := by
  norm_num [validate_action_choice, scenarioTraffic, scenarioCongestion]

/-- C1 (amended): on the scenario state with proposed action South (1),
`validate_action_choice` returns South (1) because South's traffic 0.1
exceeds its 0.05 threshold; the override to North described by the
scenario is what `apply_intelligent_action` (thresholds 0.1 / 0.2)
performs, committing North's phase pattern. -/
theorem C1_amended :
    validate_action_choice 1 scenarioTraffic scenarioCongestion = 1 ∧
      apply_intelligent_action 1 scenarioState = action_to_phase 0 := by
  constructor
  · norm_num [validate_action_choice, scenarioTraffic, scenarioCongestion]
  · have e0 : scenarioState 0 = 4/5 := rfl
    have e3 : scenarioState 3 = 1/10 := rfl
    have e6 : scenarioState 6 = 0 := rfl
    have e9 : scenarioState 9 = 0 := rfl
    have e1 : scenarioState 1 = 3/5 := rfl
    have e4 : scenarioState 4 = 0 := rfl
    have e7 : scenarioState 7 = 0 := rfl
    have e10 : scenarioState 10 = 0 := rfl
    norm_num [apply_intelligent_action, argmax4, action_to_phase,
      e0, e3, e6, e9, e1, e4, e7, e10]

/-- Every entry of a 4-entry array is bounded by the entry at `argmax4`. -/
theorem argmax4_is_max (f : Fin 4 → ℚ) (j : Fin 4) : f j ≤ f (argmax4 f) := by
  have key : f 0 ≤ f (argmax4 f) ∧ f 1 ≤ f (argmax4 f) ∧
      f 2 ≤ f (argmax4 f) ∧ f 3 ≤ f (argmax4 f) := by
    unfold argmax4
    split_ifs with h1 h2 h3
    · exact ⟨le_rfl, h1.1, h1.2.1, h1.2.2⟩
    · simp only [ge_iff_le, not_and_or, not_le] at h1
      refine ⟨?_, le_rfl, h2.1, h2.2⟩
      rcases h1 with h | h | h <;> linarith [h2.1, h2.2]
    · simp only [ge_iff_le, not_and_or, not_le] at h1 h2
      refine ⟨?_, ?_, le_rfl, h3⟩
      · rcases h1 with h | h | h
        · rcases h2 with h' | h' <;> linarith
        · linarith
        · linarith
      · rcases h2 with h | h <;> linarith
    · simp only [ge_iff_le, not_and_or, not_le] at h1 h2 h3
      refine ⟨?_, ?_, le_of_lt h3, le_rfl⟩
      · rcases h1 with h | h | h
        · rcases h2 with h' | h' <;> linarith
        · linarith
        · linarith
      · rcases h2 with h | h <;> linarith
  fin_cases j
  · exact key.1
  · exact key.2.1
  · exact key.2.2.1
  · exact key.2.2.2

/-- The Action Validator rule exactly as §4.3 of the spec words it: (1)
accept the proposal when its direction's traffic or congestion exceeds the
low-activity thresholds; (2) else the direction of maximum traffic when
that maximum exceeds the (nonzero) traffic threshold; (3) else the
direction of maximum congestion when above its threshold; (4) else the
original proposal.  Stated for comparison with `validate_action_choice`. -/
def validateSpecCascade (proposed : Fin 4) (traffic congestion : Fin 4 → ℚ) :
    Fin 4 :=
  if traffic proposed > 1/20 ∨ congestion proposed > 1/10 then proposed
  else if traffic (argmax4 traffic) > 1/20 then argmax4 traffic
  else if congestion (argmax4 congestion) > 1/10 then argmax4 congestion
  else proposed

/-- C5: `validate_action_choice` is a pure function of its three arguments
and coincides, on every input, with the ordered four-step cascade of the
spec (`validateSpecCascade`); moreover its step-2 traffic threshold 1/20
is nonzero and smaller than the step-1 congestion threshold 1/10. -/
theorem C5_validate_is_spec_cascade :
    (∀ (d : Fin 4) (t c : Fin 4 → ℚ),
        validate_action_choice d t c = validateSpecCascade d t c) ∧
      (0 : ℚ) < 1/20 ∧ (1/20 : ℚ) < 1/10 := by
  refine ⟨fun d t c => rfl, by norm_num, by norm_num⟩

/-- C4 counterexample: with proposed action North, traffic
`[0, 0.03, 0, 0]` and congestion all zero, every threshold test fails and
`validate_action_choice` falls back to the proposal — a direction with
zero traffic and zero congestion — even though South's traffic 0.03 is
nonzero. -/
theorem C4_counterexample :
    validate_action_choice 0 ![0, 3/100, 0, 0] ![0, 0, 0, 0] = 0 ∧
      (![0, 3/100, 0, 0] : Fin 4 → ℚ) 0 = 0 ∧
      (![0, 0, 0, 0] : Fin 4 → ℚ) 0 = 0 ∧
      (![0, 3/100, 0, 0] : Fin 4 → ℚ) 1 ≠ 0 := by
  refine ⟨?_, rfl, rfl, by norm_num⟩
  norm_num [validate_action_choice, argmax4]

/-- C4 (amended): when the proposed direction has zero traffic and zero
congestion and some other direction's traffic exceeds the validator's
0.05 threshold, `validate_action_choice` never returns a direction with
zero traffic and zero congestion (it returns the direction of maximum
traffic, whose traffic exceeds 0.05). -/
theorem C4_amended (d : Fin 4) (t c : Fin 4 → ℚ)
    (ht : t d = 0) (hc : c d = 0) (hsome : ∃ j, t j > 1/20) :
    ¬ (t (validate_action_choice d t c) = 0 ∧
        c (validate_action_choice d t c) = 0) := by
  obtain ⟨j, hj⟩ := hsome
  have hmax : t (argmax4 t) > 1/20 := lt_of_lt_of_le hj (argmax4_is_max t j)
  have hres : validate_action_choice d t c = argmax4 t := by
    unfold validate_action_choice
    rw [if_neg, if_pos hmax]
    rw [ht, hc]
    push_neg
    constructor <;> norm_num
  rw [hres]
  intro ⟨h0, _⟩
  rw [h0] at hmax
  norm_num at hmax

/-- Witness for `C4_amended` at a concrete input: proposed South, traffic
`[0.5, 0, 0, 0]`, congestion all zero. -/
theorem C4_amended_witness :
    ((![1/2, 0, 0, 0] : Fin 4 → ℚ) 1 = 0 ∧
        (![0, 0, 0, 0] : Fin 4 → ℚ) 1 = 0 ∧
        (∃ j, (![1/2, 0, 0, 0] : Fin 4 → ℚ) j > 1/20)) ∧
      ¬ ((![1/2, 0, 0, 0] : Fin 4 → ℚ)
            (validate_action_choice 1 ![1/2, 0, 0, 0] ![0, 0, 0, 0]) = 0 ∧
          (![0, 0, 0, 0] : Fin 4 → ℚ)
            (validate_action_choice 1 ![1/2, 0, 0, 0] ![0, 0, 0, 0]) = 0) := by
  refine ⟨⟨rfl, rfl, ⟨0, by norm_num⟩⟩, ?_⟩
  exact C4_amended 1 ![1/2, 0, 0, 0] ![0, 0, 0, 0] rfl rfl ⟨0, by norm_num⟩

/-- Python `int(q)`: truncation of a float/rational toward zero. -/
def pyInt (q : ℚ) : ℤ := if 0 ≤ q then ⌊q⌋ else ⌈q⌉

/-- Embedding of
`calculate_adaptive_duration(action, traffic, congestion, speeds, min_time, max_time, default_time)`
(`test_sumo.py`, lines 570-608): a base duration chosen by
traffic/congestion bucket (`max_time`, `(min_time+max_time)//2`,
`default_time`, or `min_time`), scaled by 0.8 under free flow or by 1.2
under slow flow with traffic, then clamped into `[min_time, max_time]`. -/
def calculate_adaptive_duration (action : Fin 4)
    (traffic congestion speeds : Fin 4 → ℚ)
    (min_time max_time default_time : ℤ) : ℤ :=
  let direction_traffic := traffic action
  let direction_congestion := congestion action
  let direction_speed := speeds action
  let base_duration : ℤ :=
    if direction_traffic > 7/10 ∨ direction_congestion > 3/5 then max_time
    else if direction_traffic > 3/10 ∨ direction_congestion > 3/10 then
      (min_time + max_time).fdiv 2
    else if direction_traffic > 1/20 then default_time
    else min_time
  let adjusted_duration : ℤ :=
    if direction_speed > 7/10 then
      max min_time (pyInt ((base_duration : ℚ) * (4/5)))
    else if direction_speed < 3/10 ∧ direction_traffic > 1/10 then
      min max_time (pyInt ((base_duration : ℚ) * (6/5)))
    else base_duration
  max min_time (min adjusted_duration max_time)

/-- The final clamp of `calculate_adaptive_duration` keeps the result in
`[min_time, max_time]` whenever `min_time ≤ max_time`. -/
theorem calculate_adaptive_duration_bounds (action : Fin 4)
    (traffic congestion speeds : Fin 4 → ℚ)
    (min_time max_time default_time : ℤ) (h : min_time ≤ max_time) :
    min_time ≤ calculate_adaptive_duration action traffic congestion speeds
        min_time max_time default_time ∧
      calculate_adaptive_duration action traffic congestion speeds
        min_time max_time default_time ≤ max_time := by
  unfold calculate_adaptive_duration
  refine ⟨le_max_left _ _, max_le h (min_le_right _ _)⟩

/-- C3: for every action index, all NaN-free traffic/congestion/speed
inputs and every `min_time ≤ max_time`, the Duration Scheduler
`calculate_adaptive_duration` returns a value within
`[min_time, max_time]`, the ×0.8 and ×1.2 speed adjustments included. -/
theorem C3_duration_within_bounds (action : Fin 4)
    (traffic congestion speeds : Fin 4 → ℚ)
    (min_time max_time default_time : ℤ) (h : min_time ≤ max_time) :
    min_time ≤ calculate_adaptive_duration action traffic congestion speeds
        min_time max_time default_time ∧
      calculate_adaptive_duration action traffic congestion speeds
        min_time max_time default_time ≤ max_time :=
  calculate_adaptive_duration_bounds action traffic congestion speeds
    min_time max_time default_time h

/-- Witness for `C3_duration_within_bounds` at the spec's scenario:
traffic 0.9, congestion 0.8, speed 0.2 for the chosen direction,
`min_time = 10`, `max_time = 45`. -/
theorem C3_duration_within_bounds_witness :
    (10 : ℤ) ≤ 45 ∧
      (10 ≤ calculate_adaptive_duration 0 ![9/10, 0, 0, 0] ![4/5, 0, 0, 0]
          ![1/5, 0, 0, 0] 10 45 15 ∧
        calculate_adaptive_duration 0 ![9/10, 0, 0, 0] ![4/5, 0, 0, 0]
          ![1/5, 0, 0, 0] 10 45 15 ≤ 45) :=
  ⟨by norm_num,
    C3_duration_within_bounds 0 ![9/10, 0, 0, 0] ![4/5, 0, 0, 0]
      ![1/5, 0, 0, 0] 10 45 15 (by norm_num)⟩

/-- A raw per-vehicle telemetry read: position `(x, y)` and speed, as
returned by `traci.vehicle.getPosition` / `getSpeed`. -/
structure Vehicle where
  x : ℚ
  y : ℚ
  speed : ℚ

/-- The position-based direction classification of
`get_correct_traffic_state` (`test_sumo.py`, lines 394-415): `y > 25` is
North, else `y < -25` South, else `x > 25` East, else `x < -25` West;
vehicles inside the junction box are unclassified. -/
def directionOf (v : Vehicle) : Option (Fin 4) :=
  if v.y > 25 then some 0
  else if v.y < -25 then some 1
  else if v.x > 25 then some 2
  else if v.x < -25 then some 3
  else none

/-- The list of speeds accumulated for one direction while scanning the
vehicle list (`north_speeds`, `south_speeds`, ...). -/
def speedsInDirection (vs : List Vehicle) (d : Fin 4) : List ℚ :=
  (vs.filter (fun v => directionOf v = some d)).map Vehicle.speed

/-- The inner `get_congestion(speeds)` of `get_correct_traffic_state`:
fraction of vehicles slower than 2 m/s, `0` for an empty direction. -/
def get_congestion (speeds : List ℚ) : ℚ :=
  if speeds = [] then 0
  else ((speeds.filter (fun s => s < 2)).length : ℚ) / speeds.length

/-- The normalized vehicle-count feature `min(count / 10.0, 1.0)`. -/
def countFeature (n : ℕ) : ℚ := min ((n : ℚ) / 10) 1

/-- The normalized mean-speed feature
`np.mean(speeds) / 15.0 if speeds else 0`. -/
def meanSpeedFeature (speeds : List ℚ) : ℚ :=
  if speeds = [] then 0 else (speeds.sum / speeds.length) / 15

/-- Embedding of `get_correct_traffic_state()` (`test_sumo.py`, lines
377-448) as a function of the list of successfully read vehicles (reads
that raise are skipped by the source's inner `try`, so they simply do not
appear in the list): the 12-feature state
`[count, congestion, speed] × [N, S, E, W]`. -/
def get_correct_traffic_state (vs : List Vehicle) : List ℚ :=
  [countFeature (speedsInDirection vs 0).length,
   get_congestion (speedsInDirection vs 0),
   meanSpeedFeature (speedsInDirection vs 0),
   countFeature (speedsInDirection vs 1).length,
   get_congestion (speedsInDirection vs 1),
   meanSpeedFeature (speedsInDirection vs 1),
   countFeature (speedsInDirection vs 2).length,
   get_congestion (speedsInDirection vs 2),
   meanSpeedFeature (speedsInDirection vs 2),
   countFeature (speedsInDirection vs 3).length,
   get_congestion (speedsInDirection vs 3),
   meanSpeedFeature (speedsInDirection vs 3)]

theorem countFeature_bounds (n : ℕ) : 0 ≤ countFeature n ∧ countFeature n ≤ 1 := by
  unfold countFeature
  exact ⟨le_min (by positivity) zero_le_one, min_le_right _ _⟩

theorem get_congestion_bounds (l : List ℚ) :
    0 ≤ get_congestion l ∧ get_congestion l ≤ 1 := by
  unfold get_congestion
  split_ifs with h
  · norm_num
  · have hlen : (0 : ℚ) < l.length := by
      have : l.length ≠ 0 := fun hn => h (List.length_eq_zero.mp hn)
      exact_mod_cast Nat.pos_of_ne_zero this
    refine ⟨by positivity, ?_⟩
    rw [div_le_one hlen]
    exact_mod_cast List.length_filter_le _ _

theorem meanSpeedFeature_bounds (l : List ℚ)
    (h : ∀ s ∈ l, 0 ≤ s ∧ s ≤ 15) :
    0 ≤ meanSpeedFeature l ∧ meanSpeedFeature l ≤ 1 := by
  unfold meanSpeedFeature
  split_ifs with hl
  · norm_num
  · have hlen : (0 : ℚ) < l.length := by
      have : l.length ≠ 0 := fun hn => hl (List.length_eq_zero.mp hn)
      exact_mod_cast Nat.pos_of_ne_zero this
    have hsum0 : 0 ≤ l.sum := List.sum_nonneg fun x hx => (h x hx).1
    have hsum15 : l.sum ≤ (l.length : ℚ) * 15 := by
      have := List.sum_le_card_nsmul l 15 fun x hx => (h x hx).2
      simpa [nsmul_eq_mul, mul_comm] using this
    constructor
    · positivity
    · rw [div_le_one (by norm_num : (0 : ℚ) < 15), div_le_iff₀ hlen]
      linarith

theorem mem_speedsInDirection {vs : List Vehicle} {d : Fin 4} {s : ℚ}
    (hs : s ∈ speedsInDirection vs d) : ∃ v ∈ vs, v.speed = s := by
  unfold speedsInDirection at hs
  simp only [List.mem_map, List.mem_filter] at hs
  obtain ⟨v, ⟨hv, _⟩, rfl⟩ := hs
  exact ⟨v, hv, rfl⟩

/-- C2 counterexample: the snapshot holding a single vehicle at
`(x, y) = (0, 30)` (North zone) with speed 30 m/s produces a state whose
mean-speed component (index 2) equals `30 / 15 = 2`, outside `[0, 1]`:
the source divides the mean speed by 15 without clamping. -/
theorem C2_counterexample :
    (get_correct_traffic_state [⟨0, 30, 30⟩]).get? 2 = some 2 ∧
      ¬ ((2 : ℚ) ≤ 1) := by
  constructor
  · have hsp : speedsInDirection [⟨0, 30, 30⟩] 0 = [30] := by
      simp [speedsInDirection, directionOf, List.filter]
      norm_num
    simp [get_correct_traffic_state, hsp, meanSpeedFeature]
    norm_num
  · norm_num

/-- C2 (amended): in every state produced by `get_correct_traffic_state`,
the vehicle-count and congestion-ratio components (indices `i` with
`i % 3 ≠ 2`) always lie in `[0, 1]`; the mean-speed components equal the
direction's mean speed divided by 15 with no clamp, so all twelve
components lie in `[0, 1]` provided every read speed lies in `[0, 15]`. -/
theorem C2_amended (vs : List Vehicle) :
    (∀ i q, i % 3 ≠ 2 → (get_correct_traffic_state vs).get? i = some q →
        0 ≤ q ∧ q ≤ 1) ∧
      ((∀ v ∈ vs, 0 ≤ v.speed ∧ v.speed ≤ 15) →
        ∀ q ∈ get_correct_traffic_state vs, 0 ≤ q ∧ q ≤ 1) := by
  constructor
  · intro i q hi hq
    rcases i with _ | _ | _ | _ | _ | _ | _ | _ | _ | _ | _ | _ | i <;>
      simp only [get_correct_traffic_state, List.get?, Option.some.injEq] at hq
    · exact hq ▸ countFeature_bounds _
    · exact hq ▸ get_congestion_bounds _
    · exact absurd rfl hi
    · exact hq ▸ countFeature_bounds _
    · exact hq ▸ get_congestion_bounds _
    · exact absurd rfl hi
    · exact hq ▸ countFeature_bounds _
    · exact hq ▸ get_congestion_bounds _
    · exact absurd rfl hi
    · exact hq ▸ countFeature_bounds _
    · exact hq ▸ get_congestion_bounds _
    · exact absurd rfl hi
    · exact absurd hq (by simp)
  · intro hsp q hq
    have hdir : ∀ d : Fin 4, ∀ s ∈ speedsInDirection vs d, 0 ≤ s ∧ s ≤ 15 := by
      intro d s hs
      obtain ⟨v, hv, rfl⟩ := mem_speedsInDirection hs
      exact hsp v hv
    simp only [get_correct_traffic_state, List.mem_cons,
      List.not_mem_nil, or_false] at hq
    rcases hq with rfl | rfl | rfl | rfl | rfl | rfl | rfl | rfl | rfl | rfl |
        rfl | rfl
    · exact countFeature_bounds _
    · exact get_congestion_bounds _
    · exact meanSpeedFeature_bounds _ (hdir 0)
    · exact countFeature_bounds _
    · exact get_congestion_bounds _
    · exact meanSpeedFeature_bounds _ (hdir 1)
    · exact countFeature_bounds _
    · exact get_congestion_bounds _
    · exact meanSpeedFeature_bounds _ (hdir 2)
    · exact countFeature_bounds _
    · exact get_congestion_bounds _
    · exact meanSpeedFeature_bounds _ (hdir 3)

/-- Witness for `C2_amended`: a single North-zone vehicle with speed 10. -/
theorem C2_amended_witness :
    (∀ v ∈ [(⟨0, 30, 10⟩ : Vehicle)], 0 ≤ v.speed ∧ v.speed ≤ 15) ∧
      ∀ q ∈ get_correct_traffic_state [⟨0, 30, 10⟩], 0 ≤ q ∧ q ≤ 1 := by
  have hv : ∀ v ∈ [(⟨0, 30, 10⟩ : Vehicle)], 0 ≤ v.speed ∧ v.speed ≤ 15 := by
    intro v hv
    simp only [List.mem_singleton] at hv
    subst hv
    norm_num
  exact ⟨hv, (C2_amended [⟨0, 30, 10⟩]).2 hv⟩

/-- One tick's observation: the per-direction traffic, congestion and
speed vectors extracted from the current state, and the action proposed
by the DQN agent (`agent.act(state)`), all treated as inputs to the
control loop. -/
structure Obs where
  traffic : Fin 4 → ℚ
  congestion : Fin 4 → ℚ
  speeds : Fin 4 → ℚ
  dqnAction : Fin 4

/-- The timing constraints of `run_enhanced_dqn_simulation`. -/
def MINIMUM_GREEN_TIME : ℤ := 10

/-- Maximum green seconds per direction. -/
def MAXIMUM_GREEN_TIME : ℤ := 45

/-- Default green seconds when no traffic. -/
def DEFAULT_GREEN_TIME : ℤ := 15

/-- Embedding of `choose_intelligent_action_and_duration(agent, state,
min_time, max_time, default_time)` (`test_sumo.py`, lines 520-540): the
DQN proposal is validated, then an adaptive duration computed for the
chosen action. -/
def choose_intelligent_action_and_duration (o : Obs)
    (min_time max_time default_time : ℤ) : Fin 4 × ℤ :=
  let chosen_action := validate_action_choice o.dqnAction o.traffic o.congestion
  let duration := calculate_adaptive_duration chosen_action o.traffic
    o.congestion o.speeds min_time max_time default_time
  (chosen_action, duration)

/-- The phase bookkeeping of `run_enhanced_dqn_simulation`
(`test_sumo.py`, lines 272-369): current simulation time, the time the
active phase started, the committed action (none before the first
commit), and the committed duration. -/
structure LoopState where
  time : ℕ
  phaseStart : ℕ
  currentAction : Option (Fin 4)
  currentDuration : ℤ

/-- Embedding of `phase_elapsed = current_time - current_phase_start` as evaluated
inside a tick, after the simulation has advanced by one (unit) step. -/
def tickElapsed (s : LoopState) : ℤ := (s.time : ℤ) + 1 - s.phaseStart

/-- The `should_change_phase` guard of `run_enhanced_dqn_simulation`
(lines 305-310): first phase, or minimum green elapsed and (planned
duration reached or maximum green reached). -/
def should_change_phase (s : LoopState) : Prop :=
  s.currentAction = none ∨
    (MINIMUM_GREEN_TIME ≤ tickElapsed s ∧
      (s.currentDuration ≤ tickElapsed s ∨ MAXIMUM_GREEN_TIME ≤ tickElapsed s))

instance (s : LoopState) : Decidable (should_change_phase s) := by
  unfold should_change_phase
  infer_instance

/-- One iteration of the control loop's while-body, restricted to the
phase-timing state: the simulation advances one unit step; when the
guard fires, a validated action and clamped duration
(`actual_duration = max(current_duration, MINIMUM_GREEN_TIME)`) are
committed and the phase timer resets.  Actuator calls, reward
bookkeeping and training mutate no timing state and are omitted. -/
def loopStep (o : Obs) (s : LoopState) : LoopState :=
  let time' := s.time + 1
  if should_change_phase s then
    let chosen := choose_intelligent_action_and_duration o
      MINIMUM_GREEN_TIME MAXIMUM_GREEN_TIME DEFAULT_GREEN_TIME
    let actual_duration := max chosen.2 MINIMUM_GREEN_TIME
    { time := time', phaseStart := time', currentAction := some chosen.1,
      currentDuration := actual_duration }
  else
    { s with time := time' }

/-- The loop state before the first iteration: `current_phase_start = 0`,
`current_action = None`, `current_duration = 15`. -/
def initLoopState : LoopState :=
  { time := 0, phaseStart := 0, currentAction := none, currentDuration := 15 }

/-- The control loop driven by a stream of per-tick observations. -/
def loopRun (obs : ℕ → Obs) : ℕ → LoopState
  | 0 => initLoopState
  | n + 1 => loopStep (obs n) (loopRun obs n)

theorem loopRun_duration_bounds (obs : ℕ → Obs) (n : ℕ) :
    MINIMUM_GREEN_TIME ≤ (loopRun obs n).currentDuration ∧
      (loopRun obs n).currentDuration ≤ MAXIMUM_GREEN_TIME := by
  induction n with
  | zero =>
    unfold loopRun initLoopState MINIMUM_GREEN_TIME MAXIMUM_GREEN_TIME
    norm_num
  | succ k ih =>
    have hstep : loopRun obs (k + 1) = loopStep (obs k) (loopRun obs k) := rfl
    rw [hstep]
    unfold loopStep choose_intelligent_action_and_duration
    split_ifs with h
    · dsimp only
      have hb := calculate_adaptive_duration_bounds
        (validate_action_choice (obs k).dqnAction (obs k).traffic (obs k).congestion)
        (obs k).traffic (obs k).congestion (obs k).speeds
        MINIMUM_GREEN_TIME MAXIMUM_GREEN_TIME DEFAULT_GREEN_TIME
        (by unfold MINIMUM_GREEN_TIME MAXIMUM_GREEN_TIME; norm_num)
      refine ⟨le_max_right _ _, max_le hb.2 ?_⟩
      unfold MINIMUM_GREEN_TIME MAXIMUM_GREEN_TIME
      norm_num
    · dsimp only
      exact ih

theorem loopRun_phaseStart_le (obs : ℕ → Obs) (n : ℕ) :
    (loopRun obs n).phaseStart ≤ (loopRun obs n).time := by
  induction n with
  | zero => exact le_refl 0
  | succ k ih =>
    have hstep : loopRun obs (k + 1) = loopStep (obs k) (loopRun obs k) := rfl
    rw [hstep]
    unfold loopStep
    split_ifs with h
    · exact le_refl _
    · exact Nat.le_succ_of_le ih

theorem loopRun_elapsed_lt (obs : ℕ → Obs) (n : ℕ)
    (h : (loopRun obs n).currentAction ≠ none) :
    ((loopRun obs n).time : ℤ) - (loopRun obs n).phaseStart <
      MAXIMUM_GREEN_TIME := by
  induction n with
  | zero => exact absurd rfl h
  | succ k ih =>
    have hdur := loopRun_duration_bounds obs k
    have hstep : loopRun obs (k + 1) = loopStep (obs k) (loopRun obs k) := rfl
    rw [hstep] at h ⊢
    unfold loopStep at h ⊢
    split_ifs at h ⊢ with hg
    · dsimp only
      unfold MAXIMUM_GREEN_TIME
      omega
    · dsimp only
      have hng := hg
      unfold should_change_phase tickElapsed at hng
      push_neg at hng
      obtain ⟨_, hng2⟩ := hng
      by_cases hmin : MINIMUM_GREEN_TIME ≤ ((loopRun obs k).time : ℤ) + 1 -
          (loopRun obs k).phaseStart
      · have := hng2 hmin
        unfold MINIMUM_GREEN_TIME MAXIMUM_GREEN_TIME at *
        omega
      · unfold MINIMUM_GREEN_TIME MAXIMUM_GREEN_TIME at *
        omega

/-- C6: in the control loop, once a first phase has been committed
(`currentAction ≠ none`), the `should_change_phase` guard fires only when
`elapsed ≥ MINIMUM_GREEN_TIME` and (`elapsed ≥` the committed duration or
`elapsed ≥ MAXIMUM_GREEN_TIME`); at any such switch the elapsed time is
at least `MINIMUM_GREEN_TIME` and at most `MAXIMUM_GREEN_TIME` (the loop
advances in unit simulation steps). -/
theorem C6_phase_switch_timing (obs : ℕ → Obs) (n : ℕ)
    (hact : (loopRun obs n).currentAction ≠ none)
    (hswitch : should_change_phase (loopRun obs n)) :
    (MINIMUM_GREEN_TIME ≤ tickElapsed (loopRun obs n) ∧
        ((loopRun obs n).currentDuration ≤ tickElapsed (loopRun obs n) ∨
          MAXIMUM_GREEN_TIME ≤ tickElapsed (loopRun obs n))) ∧
      MINIMUM_GREEN_TIME ≤ tickElapsed (loopRun obs n) ∧
      tickElapsed (loopRun obs n) ≤ MAXIMUM_GREEN_TIME := by
  rcases hswitch with h | h
  · exact absurd h hact
  refine ⟨h, h.1, ?_⟩
  have hlt := loopRun_elapsed_lt obs n hact
  unfold tickElapsed
  omega

/-- A constant observation stream with no traffic anywhere and the DQN
always proposing North. -/
def constObs : ℕ → Obs :=
  fun _ => ⟨fun _ => 0, fun _ => 0, fun _ => 0, 0⟩

theorem validate_constObs : validate_action_choice 0 (fun _ => 0) (fun _ => 0) = 0 := by
  norm_num [validate_action_choice, argmax4]

theorem duration_constObs :
    calculate_adaptive_duration 0 (fun _ => 0) (fun _ => 0) (fun _ => 0)
      MINIMUM_GREEN_TIME MAXIMUM_GREEN_TIME DEFAULT_GREEN_TIME = 10 := by
  norm_num [calculate_adaptive_duration, MINIMUM_GREEN_TIME, MAXIMUM_GREEN_TIME,
    DEFAULT_GREEN_TIME]

theorem loopRun_constObs_one : loopRun constObs 1 = ⟨1, 1, some 0, 10⟩ := by
  have h : loopRun constObs 1 = loopStep (constObs 0) initLoopState := rfl
  rw [h]
  unfold loopStep
  have hg : should_change_phase initLoopState := Or.inl rfl
  rw [if_pos hg]
  unfold choose_intelligent_action_and_duration constObs initLoopState
  dsimp only
  rw [validate_constObs, duration_constObs]
  simp [MINIMUM_GREEN_TIME]

theorem loopStep_constObs_hold (o : Obs) (k : ℕ) (hk : k < 10) :
    loopStep o ⟨k, 1, some 0, 10⟩ = ⟨k + 1, 1, some 0, 10⟩ := by
  unfold loopStep
  rw [if_neg]
  · unfold should_change_phase tickElapsed MINIMUM_GREEN_TIME MAXIMUM_GREEN_TIME
    intro h
    rcases h with h | h
    · exact Option.noConfusion h
    · dsimp only at h
      omega

theorem loopRun_constObs_hold (m : ℕ) (hm : 1 + m ≤ 10) :
    loopRun constObs (1 + m) = ⟨1 + m, 1, some 0, 10⟩ := by
  induction m with
  | zero => exact loopRun_constObs_one
  | succ k ih =>
    have h : loopRun constObs (1 + (k + 1)) =
        loopStep (constObs (1 + k)) (loopRun constObs (1 + k)) := rfl
    rw [h, ih (by omega), loopStep_constObs_hold _ _ (by omega)]
    rfl

theorem loopRun_constObs_ten : loopRun constObs 10 = ⟨10, 1, some 0, 10⟩ := by
  have := loopRun_constObs_hold 9 (by norm_num)
  norm_num at this
  exact this

/-- Witness for `C6_phase_switch_timing`: under `constObs`, the first
phase (North, duration 10) commits at tick 1 and the guard fires again
at tick 11, with elapsed time exactly 10. -/
theorem C6_phase_switch_timing_witness :
    ((loopRun constObs 10).currentAction ≠ none ∧
        should_change_phase (loopRun constObs 10)) ∧
      ((MINIMUM_GREEN_TIME ≤ tickElapsed (loopRun constObs 10) ∧
          ((loopRun constObs 10).currentDuration ≤
              tickElapsed (loopRun constObs 10) ∨
            MAXIMUM_GREEN_TIME ≤ tickElapsed (loopRun constObs 10))) ∧
        MINIMUM_GREEN_TIME ≤ tickElapsed (loopRun constObs 10) ∧
        tickElapsed (loopRun constObs 10) ≤ MAXIMUM_GREEN_TIME) := by
  have h10 := loopRun_constObs_ten
  have hact : (loopRun constObs 10).currentAction ≠ none := by
    rw [h10]
    exact fun h => Option.noConfusion h
  have hsw : should_change_phase (loopRun constObs 10) := by
    rw [h10]
    unfold should_change_phase tickElapsed MINIMUM_GREEN_TIME MAXIMUM_GREEN_TIME
    right
    norm_num
  exact ⟨⟨hact, hsw⟩, C6_phase_switch_timing constObs 10 hact hsw⟩

/-- The congestion term of `calculate_smart_reward` (`test_sumo.py`,
lines 627-630): `(total_prev_congestion - total_curr_congestion) * 3.0`,
with the per-direction congestion read at indices 1, 4, 7, 10 of the
12-feature state.  The same weight 3.0 applies whether total congestion
fell or rose. -/
def smart_congestion_reward (prev_state current_state : Fin 12 → ℚ) : ℚ :=
  ((prev_state 1 + prev_state 4 + prev_state 7 + prev_state 10) -
      (current_state 1 + current_state 4 + current_state 7 + current_state 10)) * 3

/-- The index set `range(1, 16, 4)` used for the halting/congestion
summations in `calculate_comprehensive_reward` and `remember_priority`. -/
def congestionIndices : List ℕ := List.range' 1 4 4

/-- Embedding of `sum(state[i] for i in idxs)` with Python indexing: `none` when any
index is out of bounds (an `IndexError`). -/
def sumAtIndices (s : List ℚ) : List ℕ → Option ℚ
  | [] => some 0
  | i :: rest =>
    match s.get? i, sumAtIndices s rest with
    | some x, some r => some (x + r)
    | _, _ => none

/-- Embedding of `sum(state[i] for i in range(1, 16, 4))` — the halting/congestion
summation shared by `calculate_comprehensive_reward` (lines 216-217) and
`remember_priority` (line 184). -/
def comp_halting_sum (state : List ℚ) : Option ℚ :=
  sumAtIndices state congestionIndices

/-- The congestion term of `calculate_comprehensive_reward`
(`test_sumo.py`, lines 213-224): weight 3.0 when total halting decreased,
weight 1.0 otherwise; `0` when either summation raises (caught by the
surrounding `except`). -/
def comprehensive_congestion_reward (prev_state current_state : List ℚ) : ℚ :=
  match comp_halting_sum prev_state, comp_halting_sum current_state with
  | some p, some c => if c < p then (p - c) * 3 else (p - c) * 1
  | _, _ => 0

/-- A 12-feature state with congestion 1 in the North slot and all other
features 0. -/
def stateA : Fin 12 → ℚ := ![0, 1, 0, 0, 0, 0, 0, 0, 0, 0, 0, 0]

/-- The all-zero 12-feature state. -/
def stateB : Fin 12 → ℚ := fun _ => 0

/-- C7 counterexample: the congestion term of `calculate_smart_reward`
multiplies the congestion decrease by the constant weight 3.0, so no pair
of weights with the reduction weight strictly larger than the increase
weight reproduces it: a congestion drop from 1 to 0 forces the reduction
weight to 3, and a rise from 0 to 1 forces the increase weight to 3. -/
theorem C7_counterexample :
    ¬ ∃ wd wi : ℚ, wi < wd ∧ ∀ prev curr : Fin 12 → ℚ,
        smart_congestion_reward prev curr =
          ((prev 1 + prev 4 + prev 7 + prev 10) -
              (curr 1 + curr 4 + curr 7 + curr 10)) *
            (if curr 1 + curr 4 + curr 7 + curr 10 <
                prev 1 + prev 4 + prev 7 + prev 10 then wd else wi) := by
  rintro ⟨wd, wi, hlt, hall⟩
  have h1 := hall stateA stateB
  have h2 := hall stateB stateA
  have eA1 : stateA 1 = 1 := rfl
  have eA4 : stateA 4 = 0 := rfl
  have eA7 : stateA 7 = 0 := rfl
  have eA10 : stateA 10 = 0 := rfl
  unfold smart_congestion_reward at h1 h2
  rw [eA1, eA4, eA7, eA10] at h1 h2
  unfold stateB at h1 h2
  norm_num at h1 h2
  linarith

/-- C7 (amended): the congestion term of `calculate_comprehensive_reward`
equals the decrease in total halting weighted 3 when total halting
decreased and weighted 1 otherwise, with `3 > 1 > 0`; the congestion term
of `calculate_smart_reward` — the evaluator the enhanced control loop
actually uses — applies the constant weight 3 to the decrease in total
congestion regardless of its sign. -/
theorem C7_amended :
    (∀ (prev curr : List ℚ) (p c : ℚ),
        comp_halting_sum prev = some p → comp_halting_sum curr = some c →
          ((c < p → comprehensive_congestion_reward prev curr = (p - c) * 3) ∧
            (¬ c < p → comprehensive_congestion_reward prev curr = (p - c) * 1))) ∧
      ((0 : ℚ) < 1 ∧ (1 : ℚ) < 3) ∧
      ∀ prev curr : Fin 12 → ℚ,
        smart_congestion_reward prev curr =
          ((prev 1 + prev 4 + prev 7 + prev 10) -
              (curr 1 + curr 4 + curr 7 + curr 10)) * 3 := by
  refine ⟨?_, ⟨by norm_num, by norm_num⟩, fun prev curr => rfl⟩
  intro prev curr p c hp hc
  unfold comprehensive_congestion_reward
  rw [hp, hc]
  constructor
  · intro h
    simp [h]
  · intro h
    simp [h]

/-- A 14-feature extended-layout prefix with halting 1 at indices
1, 5, 9, 13. -/
def prevList14 : List ℚ := [0, 1, 0, 0, 0, 1, 0, 0, 0, 1, 0, 0, 0, 1]

/-- A zero state of length 14. -/
def currList14 : List ℚ := List.replicate 14 0

/-- Witness for `C7_amended`: total halting drops from 4 to 0, and the
congestion term is `(4 - 0) * 3`. -/
theorem C7_amended_witness :
    comp_halting_sum prevList14 = some 4 ∧
      comp_halting_sum currList14 = some 0 ∧
      comprehensive_congestion_reward prevList14 currList14 = (4 - 0) * 3 := by
  have hp : comp_halting_sum prevList14 = some 4 := by
    simp [comp_halting_sum, congestionIndices, sumAtIndices, prevList14,
      List.range']
    norm_num
  have hc : comp_halting_sum currList14 = some 0 := by
    simp [comp_halting_sum, congestionIndices, sumAtIndices, currList14,
      List.range', List.replicate]
  exact ⟨hp, hc,
    (C7_amended.1 prevList14 currList14 4 0 hp hc).1 (by norm_num)⟩

/-- Constant `DQNAgent.epsilon_min = 0.01` (`dqn_model.py`, line 27). -/
def DQNAgent_epsilon_min : ℚ := 1/100

/-- Constant `DQNAgent.epsilon_decay = 0.995` (`dqn_model.py`, line 28). -/
def DQNAgent_epsilon_decay : ℚ := 199/200

/-- Constant `EnhancedDQNAgent.epsilon_min = 0.05` (`dqn_model.py`, line 71). -/
def EnhancedDQNAgent_epsilon_min : ℚ := 1/20

/-- Constant `EnhancedDQNAgent.epsilon_decay = 0.9995` (`dqn_model.py`, line 72). -/
def EnhancedDQNAgent_epsilon_decay : ℚ := 1999/2000

/-- The effect of one `replay` / `enhanced_replay` call on `epsilon`
(`dqn_model.py`, lines 46-62 and 128-169): when the memory holds fewer
records than the batch size the call returns early and `epsilon` is
untouched; otherwise, after training, `epsilon` is multiplied by
`epsilon_decay` when it still exceeds `epsilon_min`. -/
def epsilonAfterReplay (epsilon_min epsilon_decay : ℚ)
    (memLen batch_size : ℕ) (epsilon : ℚ) : ℚ :=
  if memLen < batch_size then epsilon
  else if epsilon > epsilon_min then epsilon * epsilon_decay else epsilon

/-- Value of `epsilon` after a sequence of `replay` calls, each described by the
memory length and batch size it saw. -/
def epsilonTrace (epsilon_min epsilon_decay eps0 : ℚ) :
    List (ℕ × ℕ) → ℚ
  | [] => eps0
  | s :: rest =>
    epsilonTrace epsilon_min epsilon_decay
      (epsilonAfterReplay epsilon_min epsilon_decay s.1 s.2 eps0) rest

theorem epsilonAfterReplay_props (em ed : ℚ) (hd0 : 0 < ed) (hd1 : ed < 1)
    (memLen batch : ℕ) (eps : ℚ) (h0 : 0 ≤ eps) (hf : em * ed ≤ eps) :
    epsilonAfterReplay em ed memLen batch eps ≤ eps ∧
      0 ≤ epsilonAfterReplay em ed memLen batch eps ∧
      em * ed ≤ epsilonAfterReplay em ed memLen batch eps := by
  unfold epsilonAfterReplay
  split_ifs with h1 h2
  · exact ⟨le_rfl, h0, hf⟩
  · refine ⟨mul_le_of_le_one_right h0 hd1.le, mul_nonneg h0 hd0.le, ?_⟩
    exact mul_le_mul_of_nonneg_right h2.le hd0.le
  · exact ⟨le_rfl, h0, hf⟩

theorem epsilonTrace_props (em ed : ℚ) (hd0 : 0 < ed) (hd1 : ed < 1)
    (steps : List (ℕ × ℕ)) :
    ∀ eps : ℚ, 0 ≤ eps → em * ed ≤ eps →
      epsilonTrace em ed eps steps ≤ eps ∧
        0 ≤ epsilonTrace em ed eps steps ∧
        em * ed ≤ epsilonTrace em ed eps steps := by
  induction steps with
  | nil => exact fun eps h0 hf => ⟨le_rfl, h0, hf⟩
  | cons s rest ih =>
    intro eps h0 hf
    have hs := epsilonAfterReplay_props em ed hd0 hd1 s.1 s.2 eps h0 hf
    have ht := ih _ hs.2.1 hs.2.2
    exact ⟨le_trans ht.1 hs.1, ht.2.1, ht.2.2⟩

/-- C8: for decay parameters `0 < epsilon_decay < 1`, across any sequence
of `replay`/`enhanced_replay` calls starting from a nonnegative epsilon
at or above the floor `epsilon_min * epsilon_decay`, epsilon never
increases and never falls below `epsilon_min * epsilon_decay`; and every
completed training step (memory length at least the batch size) that
finds epsilon above `epsilon_min` multiplies it by `epsilon_decay`. -/
theorem C8_epsilon_decay (em ed : ℚ) (hd0 : 0 < ed) (hd1 : ed < 1)
    (steps : List (ℕ × ℕ)) (eps0 : ℚ) (h0 : 0 ≤ eps0)
    (hf : em * ed ≤ eps0) :
    (epsilonTrace em ed eps0 steps ≤ eps0 ∧
        em * ed ≤ epsilonTrace em ed eps0 steps) ∧
      ∀ (memLen batch : ℕ) (eps : ℚ), ¬ memLen < batch → em < eps →
        epsilonAfterReplay em ed memLen batch eps = eps * ed := by
  have h := epsilonTrace_props em ed hd0 hd1 steps eps0 h0 hf
  refine ⟨⟨h.1, h.2.2⟩, ?_⟩
  intro memLen batch eps hm he
  unfold epsilonAfterReplay
  rw [if_neg hm, if_pos he]

/-- Witness for `C8_epsilon_decay` at the source agents' constants: the
base agent's `(epsilon_min, epsilon_decay) = (0.01, 0.995)` with
`epsilon = 1.0`, and the enhanced agent's `(0.05, 0.9995)` with
`epsilon = 0.9`, each over a completed 32-batch step followed by a
skipped one. -/
theorem C8_epsilon_decay_witness :
    ((0 : ℚ) < DQNAgent_epsilon_decay ∧ DQNAgent_epsilon_decay < 1 ∧
        (0 : ℚ) ≤ 1 ∧ DQNAgent_epsilon_min * DQNAgent_epsilon_decay ≤ 1 ∧
        (0 : ℚ) < EnhancedDQNAgent_epsilon_decay ∧
        EnhancedDQNAgent_epsilon_decay < 1 ∧ (0 : ℚ) ≤ 9/10 ∧
        EnhancedDQNAgent_epsilon_min * EnhancedDQNAgent_epsilon_decay ≤ 9/10) ∧
      (epsilonTrace DQNAgent_epsilon_min DQNAgent_epsilon_decay 1
            [(32, 32), (10, 32)] ≤ 1 ∧
        DQNAgent_epsilon_min * DQNAgent_epsilon_decay ≤
          epsilonTrace DQNAgent_epsilon_min DQNAgent_epsilon_decay 1
            [(32, 32), (10, 32)]) ∧
      (epsilonTrace EnhancedDQNAgent_epsilon_min EnhancedDQNAgent_epsilon_decay
            (9/10) [(64, 64), (10, 64)] ≤ 9/10 ∧
        EnhancedDQNAgent_epsilon_min * EnhancedDQNAgent_epsilon_decay ≤
          epsilonTrace EnhancedDQNAgent_epsilon_min
            EnhancedDQNAgent_epsilon_decay (9/10) [(64, 64), (10, 64)]) := by
  refine ⟨?_, ?_, ?_⟩
  · norm_num [DQNAgent_epsilon_min, DQNAgent_epsilon_decay,
      EnhancedDQNAgent_epsilon_min, EnhancedDQNAgent_epsilon_decay]
  · exact (C8_epsilon_decay DQNAgent_epsilon_min DQNAgent_epsilon_decay
      (by norm_num [DQNAgent_epsilon_decay])
      (by norm_num [DQNAgent_epsilon_decay]) [(32, 32), (10, 32)] 1
      (by norm_num)
      (by norm_num [DQNAgent_epsilon_min, DQNAgent_epsilon_decay])).1
  · exact (C8_epsilon_decay EnhancedDQNAgent_epsilon_min
      EnhancedDQNAgent_epsilon_decay
      (by norm_num [EnhancedDQNAgent_epsilon_decay])
      (by norm_num [EnhancedDQNAgent_epsilon_decay]) [(64, 64), (10, 64)]
      (9/10) (by norm_num)
      (by norm_num [EnhancedDQNAgent_epsilon_min,
        EnhancedDQNAgent_epsilon_decay])).1

/-- A transition record `(state, action, reward, next_state, done)`. -/
structure Transition where
  state : List ℚ
  action : ℕ
  reward : ℚ
  next_state : List ℚ
  done : Bool

/-- Embedding of `deque(maxlen=n).append(x)`: append on the right, evicting from the
left when the capacity is exceeded. -/
def dequeAppend (maxlen : ℕ) (l : List α) (x : α) : List α :=
  let grown := l ++ [x]
  if maxlen < grown.length then grown.drop (grown.length - maxlen) else grown

/-- The four bounded buffers of `EnhancedDQNAgent` (`dqn_model.py`,
lines 76-86). -/
structure AgentBuffers where
  memory : List Transition
  priority_memory : List Transition
  performance_history : List ℚ
  congestion_history : List ℚ

/-- Embedding of `DQNAgent.remember` (`dqn_model.py`, lines 43-44), with the enhanced
agent's `memory = deque(maxlen=10000)`. -/
def remember (b : AgentBuffers) (t : Transition) : AgentBuffers :=
  { b with memory := dequeAppend 10000 b.memory t }

/-- Embedding of `EnhancedDQNAgent.remember_priority` (`dqn_model.py`,
lines 171-187): append to general memory, additionally to the priority
buffer when `|reward| > 2.0`, record the reward in the performance
history, then attempt the congestion summation
`sum(state[i] for i in range(1, 16, 4))` — whose `IndexError`, when the
state is too short, is swallowed by the trailing `except`, skipping only
the congestion-history update. -/
def remember_priority (b : AgentBuffers) (state : List ℚ) (action : ℕ)
    (reward : ℚ) (next_state : List ℚ) (done : Bool) : AgentBuffers :=
  let t : Transition := ⟨state, action, reward, next_state, done⟩
  let b1 := remember b t
  let b2 :=
    if 2 < |reward| then
      { b1 with priority_memory := dequeAppend 1000 b1.priority_memory t }
    else b1
  let b3 :=
    { b2 with performance_history := dequeAppend 100 b2.performance_history reward }
  match comp_halting_sum state with
  | some c =>
    { b3 with congestion_history := dequeAppend 100 b3.congestion_history c }
  | none => b3

theorem dequeAppend_getLast (maxlen : ℕ) (h : 1 ≤ maxlen) (l : List α)
    (x : α) : (dequeAppend maxlen l x).getLast? = some x := by
  unfold dequeAppend
  dsimp only
  split_ifs with hlen
  · have hk : (l ++ [x]).length - maxlen ≤ l.length := by
      simp only [List.length_append, List.length_singleton]
      omega
    rw [List.drop_append_eq_append_drop]
    have : ((l ++ [x]).length - maxlen) - l.length = 0 := by
      simp only [List.length_append, List.length_singleton]
      omega
    rw [this]
    simp
  · simp

/-- C9: for any 12-feature state (the layout `get_correct_traffic_state`
produces), the congestion summation over `range(1, 16, 4)` accesses
index 13, which is out of bounds, so the summation raises (`none`);
`remember_priority` catches this internally: it never raises, still
appends the transition to the general memory and records the reward in
the performance history, and only the congestion-history update is
skipped. -/
theorem C9_remember_priority_oob (b : AgentBuffers) (state : List ℚ)
    (action : ℕ) (reward : ℚ) (next_state : List ℚ) (done : Bool)
    (hlen : state.length = 12) :
    (13 ∈ congestionIndices ∧ state.get? 13 = none ∧
        comp_halting_sum state = none) ∧
      (remember_priority b state action reward next_state done).congestion_history =
        b.congestion_history ∧
      (remember_priority b state action reward next_state done).memory.getLast? =
        some ⟨state, action, reward, next_state, done⟩ ∧
      (remember_priority b state action reward next_state done).performance_history =
        dequeAppend 100 b.performance_history reward := by
  have h13 : state.get? 13 = none := by
    rw [List.get?_eq_none]
    omega
  have hidx : congestionIndices = [1, 5, 9, 13] := rfl
  have hsum : comp_halting_sum state = none := by
    unfold comp_halting_sum
    rw [hidx]
    simp only [sumAtIndices, h13]
    rcases state.get? 1 with _ | a <;> rcases state.get? 5 with _ | b <;>
      rcases state.get? 9 with _ | c <;> rfl
  refine ⟨⟨by rw [hidx]; norm_num, h13, hsum⟩, ?_, ?_, ?_⟩
  · unfold remember_priority
    rw [hsum]
    dsimp only
    split_ifs <;> rfl
  · unfold remember_priority remember
    rw [hsum]
    dsimp only
    split_ifs <;> exact dequeAppend_getLast 10000 (by norm_num) _ _
  · unfold remember_priority
    rw [hsum]
    dsimp only
    split_ifs <;> rfl

/-- Witness for `C9_remember_priority_oob`: empty buffers and the
all-zero 12-feature state. -/
theorem C9_remember_priority_oob_witness :
    (List.replicate 12 (0 : ℚ)).length = 12 ∧
      (13 ∈ congestionIndices ∧
        (List.replicate 12 (0 : ℚ)).get? 13 = none ∧
        comp_halting_sum (List.replicate 12 (0 : ℚ)) = none) ∧
      (remember_priority ⟨[], [], [], []⟩ (List.replicate 12 0) 0 0 [] false).congestion_history =
        AgentBuffers.congestion_history ⟨[], [], [], []⟩ ∧
      (remember_priority ⟨[], [], [], []⟩ (List.replicate 12 0) 0 0 [] false).memory.getLast? =
        some ⟨List.replicate 12 0, 0, 0, [], false⟩ ∧
      (remember_priority ⟨[], [], [], []⟩ (List.replicate 12 0) 0 0 [] false).performance_history =
        dequeAppend 100 (AgentBuffers.performance_history ⟨[], [], [], []⟩) 0 := by
  have hlen : (List.replicate 12 (0 : ℚ)).length = 12 := by simp
  exact ⟨hlen,
    C9_remember_priority_oob ⟨[], [], [], []⟩ (List.replicate 12 0) 0 0 []
      false hlen⟩

/-- Constant `EnhancedDQNAgent.min_phase_duration = 5` (`dqn_model.py`, line 80). -/
def min_phase_duration : ℤ := 5

/-- Constant `EnhancedDQNAgent.max_phase_duration = 45` (`dqn_model.py`, line 81). -/
def max_phase_duration : ℤ := 45

/-- Constant `EnhancedDQNAgent.default_duration = 15` (`dqn_model.py`, line 82). -/
def default_duration : ℤ := 15

/-- Embedding of `EnhancedDQNAgent.choose_phase_duration(state, action)`
(`dqn_model.py`, lines 98-126): traffic buckets on the chosen direction's
features at indices `4*action`, `4*action+1`, `4*action+2`, a `+10`
emergency adjustment capped at `max_phase_duration` when
`len(state) > 18 and state[18] > 0`, and `default_duration` on any
internal exception (modelled as an out-of-bounds read). -/
def choose_phase_duration (state : List ℚ) (action : ℕ) : ℤ :=
  match state.get? (action * 4), state.get? (action * 4 + 1),
      state.get? (action * 4 + 2) with
  | some vehicle_count, some halting_count, some _speed =>
    let duration : ℤ :=
      if vehicle_count > 7/10 then
        if halting_count > 1/2 then max_phase_duration else 25
      else if vehicle_count > 3/10 then default_duration
      else min_phase_duration
    if 18 < state.length ∧ 0 < (state.get? 18).getD 0 then
      min (duration + 10) max_phase_duration
    else duration
  | _, _, _ => default_duration

/-- C10: for every state vector and action index,
`choose_phase_duration` never raises (totality of the embedding, with
every caught exception yielding `default_duration = 15`) and returns a
value within `[min_phase_duration, max_phase_duration] = [5, 45]`, the
emergency adjustment included. -/
theorem C10_choose_phase_duration_bounds (state : List ℚ) (action : ℕ) :
    min_phase_duration ≤ choose_phase_duration state action ∧
      choose_phase_duration state action ≤ max_phase_duration := by
  unfold choose_phase_duration
  rcases state.get? (action * 4) with _ | vc <;>
    rcases state.get? (action * 4 + 1) with _ | hc <;>
      rcases state.get? (action * 4 + 2) with _ | sp <;>
        dsimp only <;>
          try split_ifs
  all_goals try unfold min_phase_duration
  all_goals try unfold max_phase_duration
  all_goals try unfold default_duration
  all_goals omega

end TrafficMgmt
